import Mathlib

/-!
A shallow embedding of the trie engine of tkvdb (src/tkvdb.c, src/tkvdb.h).

The in-memory radix trie, its mutations (`tkvdb_put`, `tkvdb_get`,
`tkvdb_del`), the ordered cursor (`tkvdb_first`/`tkvdb_next`/`tkvdb_last`/
`tkvdb_prev`/`tkvdb_seek`), the fixed-slab node allocator
(`tkvdb_node_alloc`), the footer reader (`tkvdb_info_read`) and the
transaction lifecycle (`tkvdb_begin`, `tkvdb_do_commit`, `tkvdb_tr_reset`)
are translated below, each definition carrying the C function and line
numbers it embeds.

Modelling conventions:
  * bytes are `Nat` values (every concrete input uses values < 256; the
    byte-level file model of `tkvdb_info_read` uses `Fin 256`);
  * the per-node child tables `next[256]` / `fnext[256]` are modelled as a
    single association list `List (Nat × Node)`: the transactions exercised
    by the trie-level claims run over an empty database file, for which
    every `fnext` slot is 0 and every `tr->db`-guarded disk load is dead
    code, so only the resident table `next[]` carries information.  A byte
    maps to at most one entry; scans over `off = 0..255` are modelled as
    scans over `List.range`-style index lists, which is exactly the order
    the C array scan visits children in;
  * the C mutation style (in-place child-slot writes plus `replaced_by`
    forwarding, where every traversal runs `TKVDB_SKIP_RNODES` before
    touching a node) is modelled functionally: replacing a node forwards
    old to new, which to every later traversal is the same as rebinding the
    parent's slot, so each operation simply returns the updated subtree;
  * C `for (;;)` loops that walk the tree without consuming key bytes
    (cursor descent and iteration) are translated with an explicit fuel
    parameter; `none` means the fuel ran out.  All cursor results below are
    evaluated on concrete tries where a small fuel suffices;
  * 64-bit counters that the C lets wrap (`transaction_id + 1`,
    `gap_end - gap_begin`) take an explicit `% 2 ^ 64`.
-/

namespace Tkvdb

/-- `TKVDB_RES` from src/tkvdb.h lines 14-25. -/
inductive Res : Type where
  | OK
  | IO_ERROR
  | LOCKED
  | EMPTY
  | NOT_FOUND
  | ENOMEM
  | CORRUPTED
  | NOT_STARTED
  | MODIFIED
deriving DecidableEq, Repr

/-- `TKVDB_SEEK` from src/tkvdb.h lines 27-32. -/
inductive SeekMode : Type where
  | EQ
  | LE
  | GE
deriving DecidableEq, Repr

/-- The in-memory trie node `tkvdb_memnode` (src/tkvdb.c lines 140-158).
`hasVal` is the `TKVDB_NODE_VAL` bit of `type`; `pfx` and `val` are the
prefix and value slices of `prefix_val_meta` (`prefix_size` and `val_size`
are their lengths); `children` models the `next[256]` table (see the file
header).  Metadata (`TKVDB_NODE_META`, `meta_size`) is never set by any
operation of the engine and is omitted.  `disk_size`/`disk_off` matter only
to serialization, which the commit model abstracts. -/
inductive Node : Type where
  | mk (hasVal : Bool) (pfx : List Nat) (val : List Nat)
       (children : List (Nat × Node)) : Node

def Node.hasVal : Node → Bool
  | .mk h _ _ _ => h

def Node.pfx : Node → List Nat
  | .mk _ p _ _ => p

def Node.val : Node → List Nat
  | .mk _ _ v _ => v

def Node.children : Node → List (Nat × Node)
  | .mk _ _ _ c => c

/-- Lookup of `node->next[b]` in the association-list child table. -/
def getChild : List (Nat × Node) → Nat → Option Node
  | [], _ => none
  | (s, n) :: rest, b => if s = b then some n else getChild rest b

/-- The child-slot write `node->next[b] = n`. -/
def setChild : List (Nat × Node) → Nat → Node → List (Nat × Node)
  | [], b, n => [(b, n)]
  | (s, m) :: rest, b, n =>
      if s = b then (b, n) :: rest else (s, m) :: setChild rest b n

/-- The child-slot clear `node->next[b] = NULL; node->fnext[b] = 0`
(src/tkvdb.c lines 1823-1824 and 1838-1839). -/
def delChild : List (Nat × Node) → Nat → List (Nat × Node)
  | [], _ => []
  | (s, m) :: rest, b => if s = b then rest else (s, m) :: delChild rest b

/-- A started transaction's in-memory state: the `root` pointer and the
`started` flag of `struct tkvdb_tr` (src/tkvdb.c lines 161-176).  The
transactions exercised by the trie claims sit over an empty database file
(or, where noted, no database), so the lazy root load from disk in
`tkvdb_put`/`tkvdb_del`/`tkvdb_get` never fires and the arena never runs
out (dynamic allocation, `SIZE_MAX` limit). -/
structure TrM where
  started : Bool
  root : Option Node

/-- The walk-and-insert loop of `tkvdb_put` (src/tkvdb.c lines 638-814).
`pi` is the prefix index of the current node; the key argument is the part
of the key not yet consumed (`sym` onward).  Branches, in source order:
  * key exhausted, `pi == prefix_size` (lines 659-680): with
    `val_size == val->len && val->len != 0` the value bytes are overwritten
    in place and nothing else changes — in particular the `type` bits stay
    as they are (line 661-668); otherwise a new node with `TKVDB_NODE_VAL`,
    the same prefix, the new value and cloned child tables replaces the old
    one (lines 670-679);
  * key exhausted mid-prefix (lines 682-714): split into a new valued root
    holding the consumed prefix and a rest node holding the remaining
    prefix (minus the branch byte), the old type, old value bytes and old
    children;
  * prefix exhausted, key remains (lines 724-755): descend into the child
    at the next byte if present, else attach a fresh leaf holding the rest
    of the key (minus the branch byte) and the value;
  * prefix diverges (lines 765-807): three-way split into an unvalued node
    with the common prefix, a rest node with the old tail, and a leaf with
    the key tail. -/
def tkvdb_put_walk (node : Node) (pi : Nat) (key vl : List Nat) : Node :=
  match key with
  | [] =>
      if pi = node.pfx.length then
        if node.val.length = vl.length ∧ vl.length ≠ 0 then
          Node.mk node.hasVal node.pfx vl node.children
        else
          Node.mk true node.pfx vl node.children
      else
        Node.mk true (node.pfx.take pi) vl
          [(node.pfx.getD pi 0,
            Node.mk node.hasVal (node.pfx.drop (pi + 1)) node.val
              node.children)]
  | s :: rest =>
      if node.pfx.length ≤ pi then
        match getChild node.children s with
        | some ch => Node.mk node.hasVal node.pfx node.val
            (setChild node.children s (tkvdb_put_walk ch 0 rest vl))
        | none => Node.mk node.hasVal node.pfx node.val
            (setChild node.children s (Node.mk true rest vl []))
      else if node.pfx.getD pi 0 = s then
        tkvdb_put_walk node (pi + 1) rest vl
      else
        Node.mk false (node.pfx.take pi) []
          (setChild
            [(node.pfx.getD pi 0,
              Node.mk node.hasVal (node.pfx.drop (pi + 1)) node.val
                node.children)]
            s (Node.mk true rest vl []))

/-- `tkvdb_put` (src/tkvdb.c lines 610-814) for a transaction over an empty
database file: `NOT_STARTED` without the started flag, a fresh root leaf
when `root == NULL` (lines 622-636), otherwise the walk. -/
def tkvdb_put (tr : TrM) (key vl : List Nat) : Res × TrM :=
  if tr.started then
    match tr.root with
    | none => (.OK, { tr with root := some (Node.mk true key vl []) })
    | some r => (.OK, { tr with root := some (tkvdb_put_walk r 0 key vl) })
  else (.NOT_STARTED, tr)

/-- The walk of `tkvdb_get` (src/tkvdb.c lines 2029-2078): exact prefix
exhaustion with the `TKVDB_NODE_VAL` bit set returns the value bytes; any
mismatch or missing child is `NOT_FOUND`. -/
def tkvdb_get_walk (node : Node) (pi : Nat) (key : List Nat) :
    Option (List Nat) :=
  match key with
  | [] =>
      if pi = node.pfx.length ∧ node.hasVal = true then some node.val
      else none
  | s :: rest =>
      if node.pfx.length ≤ pi then
        match getChild node.children s with
        | some ch => tkvdb_get_walk ch 0 rest
        | none => none
      else if node.pfx.getD pi 0 = s then tkvdb_get_walk node (pi + 1) rest
      else none

/-- `tkvdb_get` (src/tkvdb.c lines 2001-2081) for a transaction over an
empty database file (for which `tr->db` at line 2027 is a valid pointer and
the walk never consults `fnext`): `NOT_STARTED`, `EMPTY` on a null root,
else the walk. -/
def tkvdb_get (tr : TrM) (key : List Nat) : Res × Option (List Nat) :=
  if tr.started then
    match tr.root with
    | none => (.EMPTY, none)
    | some r =>
        match tkvdb_get_walk r 0 key with
        | some v => (.OK, some v)
        | none => (.NOT_FOUND, none)
  else (.NOT_STARTED, none)

/-- The null-database deref in `tkvdb_get`: on a RAM-only transaction
(`tr->db == NULL`) with a non-null root, line 2027 of src/tkvdb.c executes
`off = tr->db->info.footer.root_off` before any null check of `tr->db`,
which is a null-pointer dereference; everything past it is undefined. -/
inductive GetRam : Type where
  | res (r : Res) (v : Option (List Nat))
  | nullDeref
deriving DecidableEq, Repr

/-- `tkvdb_get` (src/tkvdb.c lines 2001-2081) on a RAM-only transaction
(created with `tkvdb_tr_create(NULL)`, so `tr->db == NULL`): lines
2009-2011 check the started flag, lines 2014-2023 return `EMPTY` when the
root is null and there is no database, and with a non-null root control
reaches line 2027, which dereferences the null `tr->db`. -/
def tkvdb_get_ram (tr : TrM) (key : List Nat) : GetRam :=
  if tr.started then
    match tr.root, key with
    | none, _ => .res .EMPTY none
    | some _, _ => .nullDeref
  else .res .NOT_STARTED none

/-- `tkvdb_do_del` for a matched node with a parent (src/tkvdb.c lines
1822-1848).  Result: `none` is `NOT_FOUND`; `some none` asks the caller to
detach this child (`prev->next[prev_off] = NULL`); `some (some n)` replaces
the node by `n` (the `type &= ~TKVDB_NODE_VAL` case, line 1844, which keeps
the value bytes and `val_size` and only clears the bit).  The
singleton-child concatenation further down (lines 1850-1915) is dead code:
every branch above it returns first. -/
def tkvdb_do_del_child (node : Node) (delPfx : Bool) :
    Option (Option Node) :=
  if delPfx then some none
  else if node.hasVal then
    if node.children.isEmpty then some none
    else some (some (Node.mk false node.pfx node.val node.children))
  else none

/-- The walk of `tkvdb_del` below the root (src/tkvdb.c lines 1946-1996),
returning the same three-way outcome as `tkvdb_do_del_child`, lifted
through the parent chain: a detach deletes the parent's child slot, a
replacement rebinds it.  When the key ends strictly inside the node's
prefix the C code falls through to a comparison that reads past the end of
the key buffer (line 1989 with `sym` past `key->data + key->len`); the
comparison then sees garbage and in practice misses, so the walk is
modelled as `NOT_FOUND` there (no claim exercises that branch). -/
def tkvdb_del_walk (node : Node) (pi : Nat) (key : List Nat)
    (delPfx : Bool) : Option (Option Node) :=
  match key with
  | [] =>
      if pi = node.pfx.length then tkvdb_do_del_child node delPfx
      else none
  | s :: rest =>
      if node.pfx.length ≤ pi then
        match getChild node.children s with
        | some ch =>
            match tkvdb_del_walk ch 0 rest delPfx with
            | none => none
            | some none =>
                some (some (Node.mk node.hasVal node.pfx node.val
                  (delChild node.children s)))
            | some (some ch2) =>
                some (some (Node.mk node.hasVal node.pfx node.val
                  (setChild node.children s ch2)))
        | none => none
      else if node.pfx.getD pi 0 = s then
        tkvdb_del_walk node (pi + 1) rest delPfx
      else none

/-- The walk of `tkvdb_del` while still inside the root node (`prev ==
NULL`): an exact match at the root hits the `!prev` branch of
`tkvdb_do_del` (src/tkvdb.c lines 1810-1820), which frees the whole root
and installs a fresh empty node (`tkvdb_node_new(tr, 0, 0, NULL, 0, NULL)`)
— valueless, childless, empty prefix — as the new root, regardless of
`del_pfx` and of any children the old root had.  Descending into a child
sets `prev`, after which `tkvdb_del_walk` applies. -/
def tkvdb_del_root (node : Node) (pi : Nat) (key : List Nat)
    (delPfx : Bool) : Option Node :=
  match key with
  | [] =>
      if pi = node.pfx.length then some (Node.mk false [] [] [])
      else none
  | s :: rest =>
      if node.pfx.length ≤ pi then
        match getChild node.children s with
        | some ch =>
            match tkvdb_del_walk ch 0 rest delPfx with
            | none => none
            | some none =>
                some (Node.mk node.hasVal node.pfx node.val
                  (delChild node.children s))
            | some (some ch2) =>
                some (Node.mk node.hasVal node.pfx node.val
                  (setChild node.children s ch2))
        | none => none
      else if node.pfx.getD pi 0 = s then
        tkvdb_del_root node (pi + 1) rest delPfx
      else none

/-- `tkvdb_del` (src/tkvdb.c lines 1918-1998) for a transaction over an
empty database file: `NOT_STARTED`, `EMPTY` on a null root (lines
1931-1940), else the walk from the root. -/
def tkvdb_del (tr : TrM) (key : List Nat) (delPfx : Bool) : Res × TrM :=
  if tr.started then
    match tr.root with
    | none => (.EMPTY, tr)
    | some r =>
        match tkvdb_del_root r 0 key delPfx with
        | none => (.NOT_FOUND, tr)
        | some r2 => (.OK, { tr with root := some r2 })
  else (.NOT_STARTED, tr)

/-! ## Cursor (src/tkvdb.c lines 178-198 and 816-1315)

`struct tkvdb_cursor` holds a descent stack of `(node, off)` frames and a
`prefix` byte buffer accumulating the key.  The stack is modelled top at the
head; `off` is the C `int` field of `tkvdb_visit_helper` (it ranges over
-1..256 during iteration).  The cursor's `val`/`val_size` fields are not
tracked: no claim below depends on them. -/

structure Cur where
  stack : List (Node × Int)
  pfx : List Nat

def emptyCur : Cur := { stack := [], pfx := [] }

/-- `tkvdb_cursor_push` (src/tkvdb.c lines 894-905), minus the `val`
bookkeeping. -/
def tkvdb_cursor_push (c : Cur) (n : Node) (off : Int) : Cur :=
  { c with stack := (n, off) :: c.stack }

/-- `tkvdb_cursor_pop` (src/tkvdb.c lines 908-932): refuses (`none`, the C
`TKVDB_NOT_FOUND`) when at most one frame remains; otherwise removes the
top frame and erases the popped node's prefix plus the one branch byte that
led into it from the cursor key. -/
def tkvdb_cursor_pop (c : Cur) : Option Cur :=
  match c.stack with
  | [] => none
  | [_] => none
  | (n, _) :: rest =>
      some { stack := rest,
             pfx := c.pfx.take (c.pfx.length - (n.pfx.length + 1)) }

/-- The ascending child scan `TKVDB_SUBNODE_SEARCH(.., INCR=1)`
(src/tkvdb.c lines 213-230): the first populated child slot at index ≥
`start`, scanning upward to 255. -/
def scanUp (n : Node) (start : Nat) : Option (Nat × Node) :=
  (List.range' start (256 - start)).findSome?
    (fun i => (getChild n.children i).map (fun ch => (i, ch)))

/-- The descending child scan `TKVDB_SUBNODE_SEARCH(.., INCR=0)`
(src/tkvdb.c lines 213-230): the first populated child slot at index ≤
`start`, scanning downward to 0. -/
def scanDown (n : Node) (start : Nat) : Option (Nat × Node) :=
  ((List.range (start + 1)).reverse).findSome?
    (fun i => (getChild n.children i).map (fun ch => (i, ch)))

/-- `tkvdb_smallest` (src/tkvdb.c lines 970-1019): append the node's
prefix; stop at a value node, pushing it with `off = -1`; otherwise descend
into the lowest child, appending its branch byte and pushing the frame; a
valueless node with no children is `TKVDB_CORRUPTED` (lines 1002-1005). -/
def tkvdb_smallest (fuel : Nat) (c : Cur) (node : Node) :
    Option (Res × Cur) :=
  match fuel with
  | 0 => none
  | f + 1 =>
      let c1 : Cur := { c with pfx := c.pfx ++ node.pfx }
      if node.hasVal then some (.OK, tkvdb_cursor_push c1 node (-1))
      else
        match scanUp node 0 with
        | none => some (.CORRUPTED, c1)
        | some (off, ch) =>
            tkvdb_smallest f
              (tkvdb_cursor_push { c1 with pfx := c1.pfx ++ [off] } node
                (Int.ofNat off))
              ch

/-- `tkvdb_biggest` (src/tkvdb.c lines 1021-1066): append the node's
prefix; descend into the highest child if any (children sort after the
value at the same node); else stop at a value node with `off = -1`, or
report `TKVDB_CORRUPTED`. -/
def tkvdb_biggest (fuel : Nat) (c : Cur) (node : Node) :
    Option (Res × Cur) :=
  match fuel with
  | 0 => none
  | f + 1 =>
      let c1 : Cur := { c with pfx := c.pfx ++ node.pfx }
      match scanDown node 255 with
      | some (off, ch) =>
          tkvdb_biggest f
            (tkvdb_cursor_push { c1 with pfx := c1.pfx ++ [off] } node
              (Int.ofNat off))
            ch
      | none =>
          if node.hasVal then some (.OK, tkvdb_cursor_push c1 node (-1))
          else some (.CORRUPTED, c1)

/-- `tkvdb_first` (src/tkvdb.c lines 1090-1096): reset, load the root
(`tkvdb_cursor_load_root`, lines 1068-1088 — over an empty or absent
database a null root is `TKVDB_EMPTY`), then descend to the smallest
key. -/
def tkvdb_first (fuel : Nat) (tr : TrM) : Option (Res × Cur) :=
  match tr.root with
  | none => some (.EMPTY, emptyCur)
  | some r => tkvdb_smallest fuel emptyCur r

/-- `tkvdb_last` (src/tkvdb.c lines 1098-1104). -/
def tkvdb_last (fuel : Nat) (tr : TrM) : Option (Res × Cur) :=
  match tr.root with
  | none => some (.EMPTY, emptyCur)
  | some r => tkvdb_biggest fuel emptyCur r

/-- `tkvdb_next` (src/tkvdb.c lines 1233-1270): increment the top frame's
`off`; past 255 pop and retry (an exhausted bottom frame ends the traversal
with `NOT_FOUND`); otherwise scan upward for the next child, append its
branch byte, and descend to the smallest key of that subtree. -/
def tkvdb_next (fuel : Nat) (c : Cur) : Option (Res × Cur) :=
  match fuel with
  | 0 => none
  | f + 1 =>
      match c.stack with
      | [] => some (.NOT_FOUND, c)
      | (node, off) :: rest =>
          let off1 := off + 1
          if 255 < off1 then
            match tkvdb_cursor_pop { c with stack := (node, off1) :: rest } with
            | none => some (.NOT_FOUND, { c with stack := (node, off1) :: rest })
            | some c2 => tkvdb_next f c2
          else
            match scanUp node off1.toNat with
            | some (j, ch) =>
                tkvdb_smallest f
                  { stack := (node, Int.ofNat j) :: rest,
                    pfx := c.pfx ++ [j] } ch
            | none =>
                match tkvdb_cursor_pop { c with stack := (node, 256) :: rest } with
                | none => some (.NOT_FOUND, { c with stack := (node, 256) :: rest })
                | some c2 => tkvdb_next f c2

/-- `tkvdb_prev` (src/tkvdb.c lines 1272-1315): decrement the top frame's
`off`; at `off == -1` on a value node stop there (the value at a node comes
before its children); below 0 pop and retry; otherwise scan downward for a
child and descend to the biggest key of that subtree, or stop at this node
if it carries a value, or pop. -/
def tkvdb_prev (fuel : Nat) (c : Cur) : Option (Res × Cur) :=
  match fuel with
  | 0 => none
  | f + 1 =>
      match c.stack with
      | [] => some (.NOT_FOUND, c)
      | (node, off) :: rest =>
          let off1 := off - 1
          if off1 = -1 ∧ node.hasVal = true then
            some (.OK, { c with stack := (node, off1) :: rest })
          else if off1 < 0 then
            match tkvdb_cursor_pop { c with stack := (node, off1) :: rest } with
            | none => some (.NOT_FOUND, { c with stack := (node, off1) :: rest })
            | some c2 => tkvdb_prev f c2
          else
            match scanDown node off1.toNat with
            | some (j, ch) =>
                tkvdb_biggest f
                  { stack := (node, Int.ofNat j) :: rest,
                    pfx := c.pfx ++ [j] } ch
            | none =>
                if node.hasVal then
                  some (.OK, { c with stack := (node, -1) :: rest })
                else
                  match tkvdb_cursor_pop { c with stack := (node, -1) :: rest } with
                  | none => some (.NOT_FOUND, { c with stack := (node, -1) :: rest })
                  | some c2 => tkvdb_prev f c2

/-- The walk of `tkvdb_seek` (src/tkvdb.c lines 1107-1231).  Branches, in
source order:
  * key exhausted (lines 1127-1147): exact match on a value node appends
    the node's full prefix and pushes the frame (the pushed `off` is
    `*sym`, a read one past the end of the key buffer; modelled as the
    out-of-range marker 256 — nothing below depends on it); else `EQ`
    reports `NOT_FOUND` without resetting; else descend to the subtree's
    smallest key, and for `LE` step back once with `tkvdb_prev`;
  * prefix exhausted, key remains (lines 1149-1195): if the child at the
    key byte exists, append this node's prefix plus the byte, push, and
    recurse; else `EQ` resets and reports `NOT_FOUND`; `LE` scans downward
    from the key byte — on a hit it appends only the branch byte (not this
    node's prefix) and descends to that subtree's biggest key, otherwise it
    returns `OK` on a value node with the cursor untouched, or descends to
    the smallest key and steps back; `GE` is symmetric with
    `tkvdb_next`;
  * prefix diverges (lines 1197-1223): `EQ` resets and reports
    `NOT_FOUND`; `LE` takes the biggest key under this node when the
    prefix byte is below the key byte, else appends the full prefix,
    pushes with `off = -1` and steps back; `GE` symmetric. -/
def tkvdb_seek_walk (fuel : Nat) (c : Cur) (node : Node) (key : List Nat)
    (pi : Nat) (mode : SeekMode) : Option (Res × Cur) :=
  match fuel with
  | 0 => none
  | f + 1 =>
      match key with
      | [] =>
          if pi = node.pfx.length ∧ node.hasVal = true then
            some (.OK,
              tkvdb_cursor_push { c with pfx := c.pfx ++ node.pfx } node 256)
          else if mode = SeekMode.EQ then some (.NOT_FOUND, c)
          else
            match tkvdb_smallest f c node with
            | none => none
            | some (.OK, c2) =>
                if mode = SeekMode.LE then tkvdb_prev f c2
                else some (.OK, c2)
            | some (r, c2) => some (r, c2)
      | s :: rest =>
          if node.pfx.length ≤ pi then
            match getChild node.children s with
            | some ch =>
                tkvdb_seek_walk f
                  (tkvdb_cursor_push
                    { c with pfx := c.pfx ++ node.pfx ++ [s] } node
                    (Int.ofNat s))
                  ch rest 0 mode
            | none =>
                match mode with
                | .EQ => some (.NOT_FOUND, emptyCur)
                | .LE =>
                    match scanDown node s with
                    | some (j, ch) =>
                        tkvdb_biggest f
                          { stack := (node, Int.ofNat j) :: c.stack,
                            pfx := c.pfx ++ [j] } ch
                    | none =>
                        if node.hasVal then some (.OK, c)
                        else
                          match tkvdb_smallest f c node with
                          | none => none
                          | some (.OK, c2) => tkvdb_prev f c2
                          | some (r, c2) => some (r, c2)
                | .GE =>
                    match scanUp node s with
                    | some (j, ch) =>
                        tkvdb_smallest f
                          { stack := (node, Int.ofNat j) :: c.stack,
                            pfx := c.pfx ++ [j] } ch
                    | none =>
                        match tkvdb_biggest f c node with
                        | none => none
                        | some (.OK, c2) => tkvdb_next f c2
                        | some (r, c2) => some (r, c2)
          else if node.pfx.getD pi 0 = s then
            tkvdb_seek_walk f c node rest (pi + 1) mode
          else
            match mode with
            | .EQ => some (.NOT_FOUND, emptyCur)
            | .LE =>
                if node.pfx.getD pi 0 < s then tkvdb_biggest f c node
                else
                  tkvdb_prev f
                    (tkvdb_cursor_push
                      { c with pfx := c.pfx ++ node.pfx } node (-1))
            | .GE =>
                if s < node.pfx.getD pi 0 then tkvdb_smallest f c node
                else
                  tkvdb_next f
                    (tkvdb_cursor_push
                      { c with pfx := c.pfx ++ node.pfx } node
                      (Int.ofNat s))

/-- `tkvdb_seek` (src/tkvdb.c lines 1107-1231): load the root (a null root
over an empty or absent database is `TKVDB_EMPTY`), reset the cursor, and
walk from the root with an empty accumulated key. -/
def tkvdb_seek (fuel : Nat) (tr : TrM) (key : List Nat) (mode : SeekMode) :
    Option (Res × Cur) :=
  match tr.root with
  | none => some (.EMPTY, emptyCur)
  | some r => tkvdb_seek_walk fuel emptyCur r key 0 mode

/-- The full forward traversal: after a successful `tkvdb_first`, call
`tkvdb_next` repeatedly, collecting the cursor key at every `OK`, until a
non-`OK` result; the second component is that final result (`NOT_FOUND` on
a clean end of iteration). -/
def collectNext (fuel : Nat) (c : Cur) : Option (List (List Nat) × Res) :=
  match fuel with
  | 0 => none
  | f + 1 =>
      match tkvdb_next f c with
      | none => none
      | some (.OK, c2) =>
          (collectNext f c2).map (fun p => (c2.pfx :: p.1, p.2))
      | some (r, _) => some ([], r)

/-- `tkvdb_first` followed by `collectNext`: the complete key sequence a
forward traversal yields, with the result that ended it. -/
def traversal (fuel : Nat) (tr : TrM) : Option (List (List Nat) × Res) :=
  match tkvdb_first fuel tr with
  | none => none
  | some (.OK, c) =>
      (collectNext fuel c).map (fun p => (c.pfx :: p.1, p.2))
  | some (r, _) => some ([], r)

/-- Byte-lexicographic strict order on keys, with a proper prefix sorting
before its extensions — the order of §4.3 and §8 of the specification. -/
def lexLt : List Nat → List Nat → Bool
  | _, [] => false
  | [], _ :: _ => true
  | a :: as, b :: bs =>
      if a < b then true else if b < a then false else lexLt as bs

/-- Non-strict byte-lexicographic order. -/
def lexLe (a b : List Nat) : Bool := a == b || lexLt a b

/-! ## Fixed-slab node allocator (src/tkvdb.c lines 374-400) -/

/-- The bump state of a fixed-slab transaction buffer: `off` is the offset
of `tr_buf_ptr` from the slab base (the base itself is 16-byte aligned, as
`malloc` guarantees, so pointer alignment and offset alignment coincide),
`allocated` is `tr_buf_allocated`, `limit` is `tr_buf_limit`. -/
structure Slab where
  off : Nat
  allocated : Nat
  limit : Nat
deriving DecidableEq, Repr

/-- The 16-byte upward alignment
`(uintptr_t)(ptr + 16 - 1) & (-16)` of src/tkvdb.c lines 392-393. -/
def align16 (p : Nat) : Nat := ((p + 15) / 16) * 16

/-- `tkvdb_node_alloc` in fixed-slab mode (`tr_buf_dynalloc == 0`,
src/tkvdb.c lines 374-400): refuse with `NULL` (here `none`, i.e. `ENOMEM`
at the callers) when `tr_buf_allocated + node_size > tr_buf_limit`;
otherwise align the bump pointer up to 16 bytes, hand out the node at the
aligned offset, advance the pointer by `node_size` and add `node_size` —
not the alignment padding — to `tr_buf_allocated`.  The result carries the
byte interval `[start, stop)` the new node occupies and the new state. -/
def tkvdb_node_alloc (s : Slab) (nodeSize : Nat) :
    Option (Nat × Nat × Slab) :=
  if s.limit < s.allocated + nodeSize then none
  else
    let a := align16 s.off
    some (a, a + nodeSize,
      { off := a + nodeSize, allocated := s.allocated + nodeSize,
        limit := s.limit })

/-! ## Footer reading at the byte level (src/tkvdb.c lines 86-114, 233-281)

`tkvdb_info_read` is modelled twice, at two levels of abstraction.  Here at
the byte level, for the claims about the file format: the file is its byte
sequence and the footer is decoded from the last 49 bytes.  Further down,
for the commit claims, `infoReadA` reads the same checks off an abstract
file that carries its size and its decoded tail footer directly. -/

/-- The packed 49-byte footer `struct tkvdb_tr_footer` (src/tkvdb.c lines
94-104): `type(1) | signature(8) | root_off(8) | transaction_size(8) |
transaction_id(8) | gap_begin(8) | gap_end(8)`, integers little-endian. -/
structure PFooter where
  btype : Nat
  sig : List (Fin 256)
  root_off : Nat
  transaction_size : Nat
  transaction_id : Nat
  gap_begin : Nat
  gap_end : Nat
deriving DecidableEq, Repr

/-- `TKVDB_SIGNATURE` `"tkvdb003"` (src/tkvdb.c line 29) as bytes. -/
def SIGB : List (Fin 256) := [116, 107, 118, 100, 98, 48, 48, 51]

/-- Little-endian decoding of a byte list (first byte least
significant). -/
def leNat (bs : List (Fin 256)) : Nat :=
  bs.foldr (fun b acc => b.val + 256 * acc) 0

/-- Decode 49 footer bytes into the packed fields. -/
def parseFooter (bs : List (Fin 256)) : PFooter :=
  { btype := (bs.getD 0 0).val
  , sig := (bs.drop 1).take 8
  , root_off := leNat ((bs.drop 9).take 8)
  , transaction_size := leNat ((bs.drop 17).take 8)
  , transaction_id := leNat ((bs.drop 25).take 8)
  , gap_begin := leNat ((bs.drop 33).take 8)
  , gap_end := leNat ((bs.drop 41).take 8) }

/-- The all-zero footer a caller's struct holds before anything is read
into it. -/
def zeroPFooter : PFooter :=
  { btype := 0, sig := List.replicate 8 0, root_off := 0,
    transaction_size := 0, transaction_id := 0, gap_begin := 0,
    gap_end := 0 }

/-- `tkvdb_info_read` (src/tkvdb.c lines 233-281) over the file's bytes:
an empty file is fine (`OK`, nothing read — the footer struct keeps
whatever it held, modelled as the zero footer); a non-empty file of at most
49 bytes (`filesize <= TKVDB_TR_FTRSIZE`, line 252) is `CORRUPTED`; else
the last 49 bytes are decoded as the footer, a signature other than
`"tkvdb003"` is `CORRUPTED` (lines 270-274), a `transaction_size` larger
than the bytes preceding the footer is `CORRUPTED` (lines 276-278), and
otherwise the decoded footer and the file size are returned.  File-system
errors (`fstat`, `lseek`, short `read`, lines 241-267) cannot occur on the
value-level file and are not modelled. -/
def tkvdb_info_read (file : List (Fin 256)) :
    Except Res (PFooter × Nat) :=
  if file.length = 0 then .ok (zeroPFooter, 0)
  else if file.length ≤ 49 then .error .CORRUPTED
  else if (parseFooter (file.drop (file.length - 49))).sig ≠ SIGB then
    .error .CORRUPTED
  else if (parseFooter (file.drop (file.length - 49))).transaction_size >
      file.length - 49 then
    .error .CORRUPTED
  else .ok (parseFooter (file.drop (file.length - 49)), file.length)

/-! ## Transaction lifecycle: begin / commit (src/tkvdb.c lines 1394-1801)

The abstract file model for the commit claims: `DFile` carries the file
size and the decoded content of the trailing footer, which is exactly what
`tkvdb_info_read` can observe; commit's serialized transaction bytes are
summarized by their length.  The environment record `CEnv` supplies the
outcomes of the two effects the model cannot decide by itself: whether the
write-buffer growth during serialization succeeds (`tkvdb_writebuf_realloc`
can refuse with `ENOMEM`, lines 1463-1487), the serialized transaction size
(`transaction_size`, the header plus all node images), and whether the
`write` syscalls return their full byte counts. -/

/-- An abstract footer with `Nat` fields (the byte-level signature is
abstracted to a validity flag `sigOk`: `tkvdb_info_read` only ever compares
it against `TKVDB_SIGNATURE`, and commit only ever installs
`TKVDB_SIGNATURE`). -/
structure AFooter where
  btype : Nat
  sigOk : Bool
  root_off : Nat
  transaction_size : Nat
  transaction_id : Nat
  gap_begin : Nat
  gap_end : Nat
deriving DecidableEq, Repr

def zeroAFooter : AFooter :=
  { btype := 0, sigOk := false, root_off := 0, transaction_size := 0,
    transaction_id := 0, gap_begin := 0, gap_end := 0 }

/-- The abstract database file: its size and its trailing footer
(meaningful once `49 < filesize`). -/
structure DFile where
  filesize : Nat
  footer : AFooter
deriving DecidableEq, Repr

/-- `struct tkvdb_db_info` (src/tkvdb.c lines 109-114): what
`tkvdb_info_read` fills in — the footer and the file size. -/
structure DbInfo where
  footer : AFooter
  filesize : Nat
deriving DecidableEq, Repr

/-- `tkvdb_info_read` over the abstract file: the same branch structure as
the byte-level model above (empty `OK`; at most 49 bytes `CORRUPTED`; bad
signature `CORRUPTED`; `transaction_size` past the footer position
`CORRUPTED`; else the footer and size). -/
def infoReadA (f : DFile) : Except Res DbInfo :=
  if f.filesize = 0 then .ok { footer := f.footer, filesize := 0 }
  else if f.filesize ≤ 49 then .error .CORRUPTED
  else if f.footer.sigOk = false then .error .CORRUPTED
  else if f.footer.transaction_size > f.filesize - 49 then .error .CORRUPTED
  else .ok { footer := f.footer, filesize := f.filesize }

/-- The commit-level view of `struct tkvdb_tr`: database presence
(`tr->db`), the root pointer (the staged trie), the started flag, and
`tr_buf_allocated` (consulted by the gap-fits check, line 1636). -/
structure CTr where
  hasDb : Bool
  root : Option Node
  started : Bool
  allocated : Nat

/-- The world a transaction commits into: the database file and the shared
`db->info` that `tkvdb_begin` filled in (all transactions created on one
`tkvdb *db` alias the same `db->info`). -/
structure CWorld where
  file : DFile
  dbinfo : DbInfo

/-- Environment outcomes for commit's external effects; see the section
comment. -/
structure CEnv where
  serOk : Bool
  txSize : Nat
  writeOk : Bool
deriving DecidableEq, Repr

/-- `tkvdb_tr_reset` (src/tkvdb.c lines 1394-1410): free or rewind the
arena, null the root, zero `tr_buf_allocated`, clear the started flag. -/
def tkvdb_tr_reset (tr : CTr) : CTr :=
  { tr with root := none, allocated := 0, started := false }

/-- `tkvdb_begin` (src/tkvdb.c lines 1425-1453): a started transaction is a
no-op; with no database just set the flag; else re-read the footer into the
shared `db->info` — propagating any reading error — and either zero the
footer (empty file) or bump its `transaction_id` to this transaction's
expected id, then set the flag. -/
def tkvdb_begin (tr : CTr) (w : CWorld) : Res × CTr × CWorld :=
  if tr.started then (.OK, tr, w)
  else if tr.hasDb then
    match infoReadA w.file with
    | .error e => (e, tr, w)
    | .ok info =>
        if info.filesize = 0 then
          (.OK, { tr with started := true },
            { w with dbinfo := { footer := zeroAFooter, filesize := 0 } })
        else
          (.OK, { tr with started := true },
            { w with dbinfo :=
              { info with footer :=
                { info.footer with transaction_id :=
                    (info.footer.transaction_id + 1) % 2 ^ 64 } } })
  else (.OK, { tr with started := true }, w)

/-- `tkvdb_do_commit` (src/tkvdb.c lines 1585-1795) with `gap_end_ptr ==
NULL` (that is, `tkvdb_commit`, lines 1797-1801).  In source order:
  * not started: `NOT_STARTED` (lines 1606-1608);
  * no database: reset, `OK` (lines 1610-1613);
  * null root: reset, `OK` — the empty transaction is a rollback, no file
    access at all (lines 1615-1619);
  * re-read the footer; propagate a reading error without reset (line
    1622); `MODIFIED` without reset when the file size differs from the
    one `tkvdb_begin` stored in the shared `db->info` (lines 1624-1627) or
    when, on a non-empty file, the re-read `transaction_id + 1` is not the
    transaction's expected id (lines 1629-1634);
  * placement: on a non-empty file, write into the gap when
    `gap_end - gap_begin` (64-bit wrapping subtraction) exceeds
    `tr_buf_allocated`, else append at the end; an empty file installs the
    signature into the shared footer and appends at offset 0 (lines
    1636-1655);
  * serialization walks the trie into the write buffer; a buffer-growth
    refusal is `ENOMEM` and goes through `fail_node_to_buf`, which resets
    the transaction (lines 1663-1715, 1791-1794).  The C picks the
    placement before serializing; both steps are effect-free on the
    modelled state, so the model tests `serOk` first and then branches on
    the placement, which commutes;
  * the shared footer gets the new `root_off` (the transaction offset
    plus the 9-byte header) and `transaction_size`, and block type
    `TKVDB_BLOCKTYPE_FOOTER` (lines 1719-1732);
  * appending writes transaction plus footer in one `write`; a short
    write is `IO_ERROR` without reset (lines 1736-1754).  Gap-filling
    first advances the shared footer's `gap_begin` by the transaction
    size, writes the transaction into the gap, then appends the footer at
    the old end of file; any short write is `IO_ERROR` without reset
    (lines 1755-1776).  The model's single `writeOk` makes the first
    write the failing one; on the abstract file an interior gap write
    changes neither size nor tail footer, so the distinction is
    invisible;
  * on success the transaction is reset and the file has grown by the
    transaction (if appending) plus the 49-byte footer. -/
def tkvdb_do_commit (tr : CTr) (w : CWorld) (env : CEnv) :
    Res × CTr × CWorld :=
  if tr.started then
    if tr.hasDb then
      match tr.root with
      | none => (.OK, tkvdb_tr_reset tr, w)
      | some _ =>
          match infoReadA w.file with
          | .error e => (e, tr, w)
          | .ok info =>
              if info.filesize ≠ w.dbinfo.filesize then (.MODIFIED, tr, w)
              else if 0 < info.filesize ∧
                  (info.footer.transaction_id + 1) % 2 ^ 64 ≠
                    w.dbinfo.footer.transaction_id then
                (.MODIFIED, tr, w)
              else if env.serOk then
                if 0 < info.filesize ∧
                    tr.allocated <
                      (info.footer.gap_end + 2 ^ 64 -
                        info.footer.gap_begin) % 2 ^ 64 then
                  -- gap placement: transaction_off = gap_begin, append = 0
                  let ftr2 :=
                    { w.dbinfo.footer with
                      btype := 1
                      root_off := info.footer.gap_begin + 9
                      transaction_size := env.txSize
                      gap_begin := w.dbinfo.footer.gap_begin + env.txSize }
                  if env.writeOk then
                    (.OK, tkvdb_tr_reset tr,
                      { file := { filesize := info.filesize + 49,
                                  footer := ftr2 },
                        dbinfo := { footer := ftr2,
                                    filesize := w.dbinfo.filesize } })
                  else
                    (.IO_ERROR, tr,
                      { w with dbinfo := { footer := ftr2,
                                           filesize := w.dbinfo.filesize } })
                else
                  -- append at end of file (offset 0 on an empty file,
                  -- which also installs the signature first)
                  let ftr1 :=
                    { (if info.filesize = 0 then
                        { w.dbinfo.footer with sigOk := true }
                       else w.dbinfo.footer) with
                      btype := 1
                      root_off := info.filesize + 9
                      transaction_size := env.txSize }
                  if env.writeOk then
                    (.OK, tkvdb_tr_reset tr,
                      { file := { filesize := info.filesize + env.txSize + 49,
                                  footer := ftr1 },
                        dbinfo := { footer := ftr1,
                                    filesize := w.dbinfo.filesize } })
                  else
                    (.IO_ERROR, tr,
                      { w with dbinfo := { footer := ftr1,
                                           filesize := w.dbinfo.filesize } })
              else
                (.ENOMEM, tkvdb_tr_reset tr,
                  { w with dbinfo :=
                    { footer :=
                        (if info.filesize = 0 then
                          { w.dbinfo.footer with sigOk := true }
                         else w.dbinfo.footer),
                      filesize := w.dbinfo.filesize } })
    else (.OK, tkvdb_tr_reset tr, w)
  else (.NOT_STARTED, tr, w)

/-! ## Concrete scenario inputs

All byte values below are ASCII: 97 `a`, 98 `b`, 99 `c`, 100 `d`, 113 `q`,
118 `v`, 120 `x`, 122 `z`, 126 `~`, 49 `1`, 50 `2`, 51 `3`, 52 `4`,
57 `9`. -/

/-- A freshly begun transaction over an empty database file. -/
def trEmpty : TrM := { started := true, root := none }

/-- C1 scenario, step 1: insert `a -> 1`, `ab -> 2`, `abc -> 3`. -/
def c1trie : TrM :=
  (tkvdb_put (tkvdb_put (tkvdb_put trEmpty [97] [49]).2
    [97, 98] [50]).2 [97, 98, 99] [51]).2

/-- C1 scenario, step 2: `del("ab", 0)` — the node keeps its child `abc`,
so `tkvdb_do_del` clears the `TKVDB_NODE_VAL` bit and keeps `val_size`. -/
def c1afterDel : Res × TrM := tkvdb_del c1trie [97, 98] false

/-- C1 scenario, step 3: `put("ab", "9")` — one byte, the same length as
the dead value bytes, so the in-place branch of `tkvdb_put` fires. -/
def c1afterPut : Res × TrM := tkvdb_put c1afterDel.2 [97, 98] [57]

/-- C2 scenario, step 1: insert `q -> 1`, `zab -> 2`, `zad -> 3`,
`~x -> 4`. -/
def c2trie : TrM :=
  (tkvdb_put (tkvdb_put (tkvdb_put (tkvdb_put trEmpty
    [113] [49]).2 [122, 97, 98] [50]).2 [122, 97, 100] [51]).2
    [126, 120] [52]).2

/-- C2 scenario, step 2: delete `zab` and `zad`; the interior node with
prefix `a` under branch byte `z` is left valueless and childless. -/
def c2afterDel : TrM :=
  (tkvdb_del (tkvdb_del c2trie [122, 97, 98] false).2
    [122, 97, 100] false).2

/-- C3 scenario: a single key `ab`. -/
def c3trie : TrM := (tkvdb_put trEmpty [97, 98] [118]).2

/-- C4 scenario, step 1: insert `a -> 1` and `ab -> 2`; the root node holds
prefix `a` with the value and a child at `b`. -/
def c4trie : TrM :=
  (tkvdb_put (tkvdb_put trEmpty [97] [49]).2 [97, 98] [50]).2

/-- C4 scenario, step 2: `del("a", 0)` matches at the root with no
parent. -/
def c4afterDel : Res × TrM := tkvdb_del c4trie [97] false

/-- C8 scenario: a RAM-only transaction (no database) holding `a -> 1`.
`tkvdb_put` touches `tr->db` only behind a null check, so building the trie
is well-defined. -/
def c8tr : TrM := (tkvdb_put trEmpty [97] [49]).2

/-- A valid trailing footer for the abstract commit scenarios. -/
def c5footer : AFooter :=
  { btype := 1, sigOk := true, root_off := 9, transaction_size := 40,
    transaction_id := 7, gap_begin := 0, gap_end := 0 }

/-- A non-empty, well-formed database state: 100 file bytes, valid tail
footer, `db->info` as a fresh open of that file leaves it. -/
def c5world : CWorld :=
  { file := { filesize := 100, footer := c5footer },
    dbinfo := { footer := c5footer, filesize := 100 } }

/-- Transaction A of the C5 counterexample: created on the database, never
mutated (root stays null). -/
def c5trA : CTr := { hasDb := true, root := none, started := false, allocated := 0 }

/-- Transaction B of the C5 counterexample: same shape. -/
def c5trB : CTr := { hasDb := true, root := none, started := false, allocated := 0 }

/-- A benign effect environment: serialization and writes succeed, the
serialized transaction is 60 bytes. -/
def c5env : CEnv := { serOk := true, txSize := 60, writeOk := true }

/-- `tkvdb_begin(A)` on the shared database. -/
def c5beginA : Res × CTr × CWorld := tkvdb_begin c5trA c5world

/-- `tkvdb_begin(B)` after A's begin (same shared `db->info`). -/
def c5beginB : Res × CTr × CWorld := tkvdb_begin c5trB c5beginA.2.2

/-- A's commit, first. -/
def c5commitA : Res × CTr × CWorld := tkvdb_do_commit c5beginA.2.1 c5beginB.2.2 c5env

/-- B's commit, after A's. -/
def c5commitB : Res × CTr × CWorld := tkvdb_do_commit c5beginB.2.1 c5commitA.2.2 c5env

/-- A staged one-key trie for the commit witnesses. -/
def cNode : Node := Node.mk true [97] [49] []

/-- A started transaction holding staged mutations, for the C5/C6
witnesses and the C6 counterexample. -/
def c6tr : CTr := { hasDb := true, root := some cNode, started := true, allocated := 64 }

/-- A world whose file grew (200 bytes) after the begin that recorded 150
bytes in the shared `db->info` — the re-read footer shows a different file
size. -/
def c6world : CWorld :=
  { file := { filesize := 200, footer := c5footer },
    dbinfo := { footer := c5footer, filesize := 150 } }

/-- What `infoReadA` yields on `c6world.file`. -/
def c6info : DbInfo := { footer := c5footer, filesize := 200 }

/-- An idle transaction on a database, for the C10 witness. -/
def c10tr : CTr := { hasDb := true, root := none, started := true, allocated := 0 }

/-- A valid 49-byte file: one complete footer (`type = FOOTER`, the
`"tkvdb003"` signature, all integer fields zero) and nothing else. -/
def c9file49 : List (Fin 256) := 1 :: (SIGB ++ List.replicate 40 0)

/-- A 50-byte file: one padding byte before the same valid footer. -/
def c9file50 : List (Fin 256) := 0 :: c9file49

/-! ## Theorems -/

/-- Helper: the byte-level `tkvdb_info_read` only ever fails with
`CORRUPTED` (file-system errors are outside the value-level model). -/
theorem infoReadA_error_eq (f : DFile) (e : Res)
    (h : infoReadA f = .error e) : e = Res.CORRUPTED := by
  unfold infoReadA at h
  split at h
  · exact absurd h (by simp)
  · split at h
    · injection h with h2
      exact h2.symm
    · split at h
      · injection h with h2
        exact h2.symm
      · split at h
        · injection h with h2
          exact h2.symm
        · exact absurd h (by simp)

/-- Helper: a successful `infoReadA` reports the file's size. -/
theorem infoReadA_ok_filesize (f : DFile) (i : DbInfo)
    (h : infoReadA f = .ok i) : i.filesize = f.filesize := by
  unfold infoReadA at h
  split at h
  · injection h with h2
    subst h2
    simp
    omega
  · split at h
    · exact absurd h (by simp)
    · split at h
      · exact absurd h (by simp)
      · split at h
        · exact absurd h (by simp)
        · injection h with h2
          subst h2
          rfl

/-- C1: the put/get round trip fails on the code.  Insert `a -> 1`,
`ab -> 2`, `abc -> 3`; `del("ab", 0)` clears the value bit of the `ab` node
but keeps its children and its `val_size`; then `put("ab", "9")` returns
`OK` through the in-place same-length branch of `tkvdb_put`, which never
restores the value bit — so `"9"` was inserted by a successful put and
never deleted or overwritten, yet `get("ab")` reports `NOT_FOUND` (while
the sibling keys keep their values). -/
theorem c1_put_get_roundtrip_violated :
    c1afterDel.1 = Res.OK ∧
    c1afterPut.1 = Res.OK ∧
    tkvdb_get c1afterPut.2 [97, 98] = (Res.NOT_FOUND, none) ∧
    tkvdb_get c1afterPut.2 [97] = (Res.OK, some [49]) ∧
    tkvdb_get c1afterPut.2 [97, 98, 99] = (Res.OK, some [51]) :=
  ⟨rfl, rfl, rfl, rfl, rfl⟩

/-- C2: traversal order correctness fails on the code.  After deleting
`zab` and `zad` from the C2 trie, the keys `q` and `~x` are both present
and `q < ~x` byte-lexicographically, but the `tkvdb_first`/`tkvdb_next`
traversal yields only `q` and then aborts with `TKVDB_CORRUPTED` — never
reaching `NOT_FOUND` and never yielding `~x` — because `tkvdb_del` left a
valueless, childless interior node on the `z` branch and
`tkvdb_smallest` reports such a node as corruption. -/
theorem c2_order_traversal_violated :
    traversal 100 c2afterDel = some ([[113]], Res.CORRUPTED) ∧
    (tkvdb_get c2afterDel [113]).1 = Res.OK ∧
    (tkvdb_get c2afterDel [126, 120]).1 = Res.OK ∧
    lexLt [113] [126, 120] = true :=
  ⟨rfl, rfl, rfl, rfl⟩

/-- C3: seek-LE positioning fails on the code.  On a trie holding only the
key `ab`, `seek("abz", LE)` must position the cursor on `ab` (the largest
visible key at most `abz`); the code reaches the end-of-prefix branch with
no child at byte `z`, finds no smaller sibling, sees the value bit and
returns `OK` — without ever appending the node's prefix or pushing the
node — leaving the cursor with an empty key. -/
theorem c3_seek_le_violated :
    (tkvdb_seek 100 c3trie [97, 98, 122] SeekMode.LE).map
        (fun rc => (rc.1, rc.2.pfx)) = some (Res.OK, []) ∧
    (tkvdb_get c3trie [97, 98]).1 = Res.OK ∧
    lexLe [97, 98] [97, 98, 122] = true ∧
    ([] : List Nat) ≠ [97, 98] :=
  ⟨rfl, rfl, rfl, by decide⟩

/-- C4: delete-exact framing fails on the code, at the claim's own example.
With `a -> 1` and `ab -> 2` inserted, the root node holds prefix `a`; a
`del("a", 0)` matches at the root with no parent, and `tkvdb_do_del`
replaces the entire root by a fresh empty node — so the untouched key `ab`
is gone too, where the claim requires `get("ab")` to still return `2`. -/
theorem c4_delete_exact_violated :
    c4afterDel.1 = Res.OK ∧
    (tkvdb_get c4afterDel.2 [97]).1 = Res.NOT_FOUND ∧
    tkvdb_get c4afterDel.2 [97, 98] = (Res.NOT_FOUND, none) ∧
    tkvdb_get c4trie [97, 98] = (Res.OK, some [50]) :=
  ⟨rfl, rfl, rfl, rfl⟩

/-- C5 counterexample: the claim as stated is false for transactions that
never staged a mutation.  A and B both begin on the same non-empty
database; A's commit returns `OK` (its root is null, so `tkvdb_do_commit`
just resets it, touching nothing); B's subsequent commit then also returns
`OK` through the same branch — not `MODIFIED`. -/
theorem c5_counterexample_empty_transactions :
    0 < c5world.file.filesize ∧
    c5beginA.1 = Res.OK ∧
    c5beginB.1 = Res.OK ∧
    c5commitA.1 = Res.OK ∧
    c5commitB.1 = Res.OK ∧
    c5commitB.1 ≠ Res.MODIFIED :=
  ⟨by decide, rfl, rfl, rfl, by decide, by decide⟩

/-- C6 counterexample: a commit that returns `MODIFIED` does not consume
the transaction.  On a started transaction with a staged root, when the
re-read file size (200) differs from the one recorded at begin (150),
`tkvdb_do_commit` returns `MODIFIED` before any reset: the transaction
comes back with its started flag still set and its trie intact. -/
theorem c6_counterexample_modified_not_reset :
    tkvdb_do_commit c6tr c6world c5env = (Res.MODIFIED, c6tr, c6world) ∧
    c6tr.started = true ∧
    c6tr.root = some cNode :=
  ⟨rfl, rfl, rfl⟩

/-- C7: fixed-slab arena accounting fails on the code.  With a 4096-byte
slab, a 2056-byte node allocation succeeds at offset 0; a following
2040-byte allocation passes the limit check (2056 + 2040 = 4096 fits,
because `tr_buf_allocated` counts node sizes but not alignment padding),
yet the 16-byte alignment places it at offset 2064, so its bytes
`[2064, 4104)` run past the 4096-byte slab instead of failing with
`ENOMEM`. -/
theorem c7_slab_overrun :
    tkvdb_node_alloc { off := 0, allocated := 0, limit := 4096 } 2056 =
      some (0, 2056, { off := 2056, allocated := 2056, limit := 4096 }) ∧
    tkvdb_node_alloc { off := 2056, allocated := 2056, limit := 4096 } 2040 =
      some (2064, 4104, { off := 4104, allocated := 4096, limit := 4096 }) ∧
    4096 < 4104 :=
  ⟨rfl, rfl, by decide⟩

/-- C8: getting a present key from a RAM-only transaction dereferences the
null database pointer.  After `put("a", "1")` on a transaction created with
no database, the root is a one-key trie; `tkvdb_get("a")` then executes
`off = tr->db->info.footer.root_off` (src/tkvdb.c line 2027) with
`tr->db == NULL` before any walk — undefined behavior instead of the
claimed `OK` with the stored value. -/
theorem c8_ram_get_null_deref :
    (tkvdb_put trEmpty [97] [49]).1 = Res.OK ∧
    c8tr.root = some (Node.mk true [97] [49] []) ∧
    tkvdb_get_ram c8tr [97] = GetRam.nullDeref :=
  ⟨rfl, rfl, rfl⟩

/-- C9 counterexample: a file of exactly 49 bytes — one whole, valid
footer — is rejected.  The claim says a file of at least 49 bytes has its
last 49 bytes read and its signature validated; `tkvdb_info_read` instead
refuses every file with `filesize <= TKVDB_TR_FTRSIZE` as `CORRUPTED`
(src/tkvdb.c line 252), the boundary case included, valid signature
notwithstanding. -/
theorem c9_counterexample_exact_49_bytes :
    c9file49.length = 49 ∧
    (parseFooter c9file49).sig = SIGB ∧
    tkvdb_info_read c9file49 = .error Res.CORRUPTED :=
  ⟨by decide, by decide, rfl⟩

/-- C5 (amended): for a started transaction on a database with at least one
staged mutation (a non-null root), commit returns `MODIFIED` and leaves
both the file and the transaction untouched whenever the re-read footer
shows a file size different from the one recorded at begin, or (on a
non-empty file) a `transaction_id` whose 64-bit successor is not the
transaction's expected id; and every successful commit of such a
transaction strictly grows the file — which is why, after A and B begin on
the same state and A (holding staged mutations) commits first, B's commit
re-reads a larger file and fails `MODIFIED`, leaving the file exactly as
A's commit left it. -/
theorem c5_commit_modified_amended (tr : CTr) (w : CWorld) (env : CEnv)
    (n : Node) (info : DbInfo)
    (hs : tr.started = true) (hdb : tr.hasDb = true)
    (hr : tr.root = some n) (hread : infoReadA w.file = .ok info) :
    (info.filesize ≠ w.dbinfo.filesize →
       tkvdb_do_commit tr w env = (Res.MODIFIED, tr, w)) ∧
    (info.filesize = w.dbinfo.filesize → 0 < info.filesize →
       (info.footer.transaction_id + 1) % 2 ^ 64 ≠
         w.dbinfo.footer.transaction_id →
       tkvdb_do_commit tr w env = (Res.MODIFIED, tr, w)) ∧
    (∀ tr2 w2, tkvdb_do_commit tr w env = (Res.OK, tr2, w2) →
       w.file.filesize < w2.file.filesize) := by
  have hfs : info.filesize = w.file.filesize := infoReadA_ok_filesize _ _ hread
  refine ⟨?_, ?_, ?_⟩
  · intro hne
    simp [tkvdb_do_commit, hs, hdb, hr, hread, hne]
  · intro heq hpos hid
    simp only [tkvdb_do_commit, hs, hdb, hr, hread, if_true]
    rw [if_neg (by simpa using heq), if_pos ⟨hpos, hid⟩]
  · intro tr2 w2 h
    simp only [tkvdb_do_commit, hs, hdb, hr, hread, if_true] at h
    repeat' split at h
    all_goals simp only [Prod.mk.injEq] at h
    all_goals first
      | (obtain ⟨-, -, hw⟩ := h
         subst hw
         simp only []
         omega)
      | exact absurd h.1 (by simp)

/-- C5 witness: the amended theorem applied at a concrete started
transaction with a staged root, over a world whose file was re-read at 200
bytes while begin recorded 150: commit returns `MODIFIED` and changes
nothing. -/
theorem c5_commit_modified_amended_witness :
    tkvdb_do_commit c6tr c6world c5env = (Res.MODIFIED, c6tr, c6world) :=
  (c5_commit_modified_amended c6tr c6world c5env cNode c6info
    rfl rfl rfl rfl).1 (by decide)

/-- C6 (amended): a commit on a started transaction consumes it — root
nulled, arena emptied, started flag cleared — exactly when it returns `OK`
(the no-database, empty-root and successful-write paths) or fails during
serialization with `ENOMEM`; a commit that returns `MODIFIED`, `IO_ERROR`
or `CORRUPTED` returns before the reset and leaves the transaction
untouched, so those mutations can still be retried. -/
theorem c6_commit_consumption_amended (tr : CTr) (w : CWorld) (env : CEnv)
    (hs : tr.started = true) :
    (((tkvdb_do_commit tr w env).1 = Res.OK ∨
        (tkvdb_do_commit tr w env).1 = Res.ENOMEM) →
       ((tkvdb_do_commit tr w env).2.1.started = false ∧
        (tkvdb_do_commit tr w env).2.1.root = none ∧
        (tkvdb_do_commit tr w env).2.1.allocated = 0)) ∧
    (((tkvdb_do_commit tr w env).1 = Res.MODIFIED ∨
        (tkvdb_do_commit tr w env).1 = Res.IO_ERROR ∨
        (tkvdb_do_commit tr w env).1 = Res.CORRUPTED) →
       (tkvdb_do_commit tr w env).2.1 = tr) := by
  simp only [tkvdb_do_commit, hs, if_true]
  split
  · -- a database is attached
    split
    · -- null root: reset, OK
      exact ⟨fun _ => ⟨rfl, rfl, rfl⟩,
        fun h => by rcases h with h | h | h <;> exact absurd h (by simp)⟩
    · -- staged root
      split
      · -- footer re-read failed: returned as is, no reset
        rename_i e he
        have he2 : e = Res.CORRUPTED := infoReadA_error_eq _ _ he
        subst he2
        exact ⟨fun h => by rcases h with h | h <;> exact absurd h (by simp),
          fun _ => rfl⟩
      · -- footer re-read fine: remaining checks and write paths
        repeat' split
        all_goals first
          | exact ⟨fun _ => ⟨rfl, rfl, rfl⟩,
              fun h => by rcases h with h | h | h <;> exact absurd h (by simp)⟩
          | exact ⟨fun h => by rcases h with h | h <;> exact absurd h (by simp),
              fun _ => rfl⟩
  · -- no database: reset, OK
    exact ⟨fun _ => ⟨rfl, rfl, rfl⟩,
      fun h => by rcases h with h | h | h <;> exact absurd h (by simp)⟩

/-- C6 witness: the amended theorem applied at a concrete `MODIFIED`
commit — the transaction comes back untouched. -/
theorem c6_commit_consumption_amended_witness :
    (tkvdb_do_commit c6tr c6world c5env).2.1 = c6tr :=
  (c6_commit_consumption_amended c6tr c6world c5env rfl).2 (Or.inl (by decide))

/-- C9 (amended): opening reads the file tail as follows — an empty file is
accepted and the database treated as empty; a non-empty file of at most 49
bytes (the exact 49-byte boundary included) fails with `CORRUPTED`; on a
file of more than 49 bytes the last 49 bytes are decoded as the footer,
any signature other than `"tkvdb003"` yields `CORRUPTED`, a stored
`transaction_size` exceeding the bytes before the footer yields
`CORRUPTED`, and otherwise the decoded footer — its `root_off` becoming
the authoritative root — and the file size are returned. -/
theorem c9_info_read_amended (f : List (Fin 256)) :
    (f.length = 0 → tkvdb_info_read f = .ok (zeroPFooter, 0)) ∧
    (0 < f.length → f.length ≤ 49 →
       tkvdb_info_read f = .error Res.CORRUPTED) ∧
    (49 < f.length → (parseFooter (f.drop (f.length - 49))).sig ≠ SIGB →
       tkvdb_info_read f = .error Res.CORRUPTED) ∧
    (49 < f.length → (parseFooter (f.drop (f.length - 49))).sig = SIGB →
       (parseFooter (f.drop (f.length - 49))).transaction_size ≤
         f.length - 49 →
       tkvdb_info_read f =
         .ok (parseFooter (f.drop (f.length - 49)), f.length)) := by
  refine ⟨?_, ?_, ?_, ?_⟩
  · intro h
    simp [tkvdb_info_read, h]
  · intro h1 h2
    unfold tkvdb_info_read
    rw [if_neg (by omega), if_pos h2]
  · intro h1 hsig
    unfold tkvdb_info_read
    rw [if_neg (by omega), if_neg (by omega), if_pos hsig]
  · intro h1 hsig hts
    unfold tkvdb_info_read
    rw [if_neg (by omega), if_neg (by omega),
      if_neg (not_not_intro hsig), if_neg (by omega)]

/-- C9 witness: the amended theorem applied at a concrete 50-byte file
with a valid trailing footer — it is accepted and the decoded footer
returned. -/
theorem c9_info_read_amended_witness :
    tkvdb_info_read c9file50 =
      .ok (parseFooter (c9file50.drop (c9file50.length - 49)),
           c9file50.length) :=
  (c9_info_read_amended c9file50).2.2.2 (by decide) (by decide) (by decide)

/-- C10: committing a started transaction on a database into which nothing
was staged (root still null) returns `OK`, performs no file access — the
file and the shared `db->info` (footer and `transaction_id` included) are
unchanged — and resets the transaction to its idle state. -/
theorem c10_commit_empty_root (tr : CTr) (w : CWorld) (env : CEnv)
    (hs : tr.started = true) (hdb : tr.hasDb = true)
    (hr : tr.root = none) :
    tkvdb_do_commit tr w env = (Res.OK, tkvdb_tr_reset tr, w) := by
  simp [tkvdb_do_commit, hs, hdb, hr]

/-- C10 witness: the theorem applied at a concrete idle-rooted transaction
and world. -/
theorem c10_commit_empty_root_witness :
    tkvdb_do_commit c10tr c6world c5env =
      (Res.OK, tkvdb_tr_reset c10tr, c6world) :=
  c10_commit_empty_root c10tr c6world c5env rfl rfl rfl

end Tkvdb
